import Mathlib

/-!
Shallow embedding of `slowPubSubReconnect.py` from the PythonSlowClients
repository: the `SlowReader` reconnecting rate-limited subscriber, the
`Publisher`, and the `BufferTester` orchestrator, together with the
startup validation in `main`.

External effects (the Redis client, `time.time()`, `random.*`, thread
scheduling) are supplied as oracle inputs: each read-loop iteration is
driven by an `IterInput` record carrying the wall-clock time observed,
the random draws, the result of `pubsub.get_message`, and the outcomes
of any reconnect rounds attempted inside that iteration.  Python's
`len(str(data))` for a `bytes` payload is embedded as `pyBytesReprLen`,
the length of CPython's `repr` of a bytes object.
-/

namespace SlowPubSub

/-- `ConnectionStats` dataclass (slowPubSubReconnect.py lines 20-24). -/
structure ConnectionStats where
  bytes_read : Nat := 0
  messages_received : Nat := 0
  reconnection_attempts : Nat := 0
deriving DecidableEq

/-- Instance attributes of the `SlowReader` class (lines 27-41).
`handle_open` abstracts whether a live `redis_client`/`pubsub` pair
bound to the channel exists. -/
structure SlowReader where
  host : String
  port : Nat
  channel : String
  min_bytes_recv : Nat
  max_bytes_recv : Nat
  min_recv_sleep_time : ℚ
  max_recv_sleep_time : ℚ
  stats : ConnectionStats
  running : Bool
  reconnect_delay : Nat
  max_reconnect_delay : Nat
  handle_open : Bool
deriving DecidableEq

/-- Outcome of one attempt to build a Redis client and subscribe:
either it succeeds, or the client raises a `RedisError`. -/
inductive ConnectOutcome where
  | ok
  | redisErr
deriving DecidableEq

/-- `SlowReader.connect` (lines 43-63): on success it installs a fresh
handle, resets `reconnect_delay` to 1 and returns `True`; a `RedisError`
is caught, logged, and `False` is returned (the reader state is left as
it was). -/
def SlowReader.connect (r : SlowReader) (co : ConnectOutcome) : SlowReader × Bool :=
  match co with
  | .ok => ({ r with handle_open := true, reconnect_delay := 1 }, true)
  | .redisErr => (r, false)

/-- `SlowReader.__init__` (lines 27-41): stores the configuration,
zeroes the stats, sets `running = True`, `reconnect_delay = 1`,
`max_reconnect_delay = 30`, then calls `connect` and ignores its
boolean result. -/
def SlowReader.init (host : String) (port : Nat) (channel : String)
    (min_bytes_recv max_bytes_recv : Nat)
    (min_recv_sleep_time max_recv_sleep_time : ℚ)
    (co : ConnectOutcome) : SlowReader :=
  let r : SlowReader :=
    { host := host, port := port, channel := channel,
      min_bytes_recv := min_bytes_recv, max_bytes_recv := max_bytes_recv,
      min_recv_sleep_time := min_recv_sleep_time,
      max_recv_sleep_time := max_recv_sleep_time,
      stats := {}, running := true,
      reconnect_delay := 1, max_reconnect_delay := 30,
      handle_open := false }
  (SlowReader.connect r co).1

/-- `SlowReader.stop` (lines 139-146): sets `running = False` and
best-effort unsubscribes/closes the handle, swallowing any error. -/
def SlowReader.stop (r : SlowReader) : SlowReader :=
  { r with running := false, handle_open := false }

/-- One round of the `while self.running` loop inside
`SlowReader.reconnect`: whether a concurrent `stop()` request has
landed before the loop condition is re-read, and the outcome of the
`connect()` call made in that round. -/
structure Round where
  stopRequested : Bool
  outcome : ConnectOutcome
deriving DecidableEq

/-- Result of `SlowReader.reconnect`: the final reader state, the
returned boolean (`none` when the supplied rounds were exhausted with
the loop still spinning), and the sequence of backoff delays slept, in
order. -/
structure ReconnectResult where
  rs : SlowReader
  outcome : Option Bool
  sleeps : List Nat
deriving DecidableEq

/-- The `while self.running` loop of `SlowReader.reconnect`
(lines 70-91): close the stale handle (best effort), call `connect()`;
on success return `True`; on failure sleep `reconnect_delay` seconds
and double the delay, capping it at `max_reconnect_delay`; if `running`
has been cleared, return `False`. -/
def SlowReader.reconnectLoop : SlowReader → List Round → ReconnectResult
  | rs, [] => { rs := rs, outcome := none, sleeps := [] }
  | rs, r :: rest =>
    let rs1 := if r.stopRequested then { rs with running := false } else rs
    if rs1.running then
      let rs2 := { rs1 with handle_open := false }
      let c := SlowReader.connect rs2 r.outcome
      if c.2 then
        { rs := c.1, outcome := some true, sleeps := [] }
      else
        let slept := c.1.reconnect_delay
        let rs3 := { c.1 with
          reconnect_delay := min (c.1.reconnect_delay * 2) c.1.max_reconnect_delay }
        let res := SlowReader.reconnectLoop rs3 rest
        { res with sleeps := slept :: res.sleeps }
    else
      { rs := rs1, outcome := some false, sleeps := [] }

/-- `SlowReader.reconnect` (lines 65-91): increments
`stats.reconnection_attempts` once, then runs the backoff loop. -/
def SlowReader.reconnect (rs : SlowReader) (rounds : List Round) : ReconnectResult :=
  let rs1 := { rs with stats :=
    { rs.stats with reconnection_attempts := rs.stats.reconnection_attempts + 1 } }
  SlowReader.reconnectLoop rs1 rounds

/-- A failed reconnect round with no concurrent stop request. -/
def failRound : Round := { stopRequested := false, outcome := .redisErr }

/-- Length contributed by one byte `b` to CPython's `repr` of a bytes
object when `quote` is the chosen quote character: backslash and the
quote character escape to two characters, as do tab, newline and
carriage return; other printable ASCII bytes are one character; every
remaining byte renders as a four-character hex escape. -/
def pyByteEscLen (quote : Nat) (b : Nat) : Nat :=
  if b = 92 ∨ b = quote then 2
  else if b = 9 ∨ b = 10 ∨ b = 13 then 2
  else if 32 ≤ b ∧ b ≤ 126 then 1
  else 4

/-- `len(str(data))` for a Python `bytes` value `data` (the payload of
a delivered pubsub message): the length of CPython's `repr`, which is
the two quote characters plus the `b` marker plus the escaped bytes.
CPython quotes with a single quote unless the bytes contain a single
quote and no double quote, in which case it quotes with a double
quote. -/
def pyBytesReprLen (payload : List Nat) : Nat :=
  let quote := if payload.contains 39 ∧ ¬ payload.contains 34 then 34 else 39
  3 + (payload.map (pyByteEscLen quote)).sum

/-- The local variables of `SlowReader.read_loop` (lines 101-104):
`last_read_time`, `bytes_read_in_current_second` and
`current_byte_limit`. -/
structure LoopState where
  last_read_time : ℚ
  bytes_read_in_current_second : Nat
  current_byte_limit : Nat
deriving DecidableEq

/-- Result of the `self.pubsub.get_message(timeout=1.0)` call in one
iteration: a message dict with its type tag and bytes payload, `None`
on timeout, or a raised exception (`ConnectionError`/`TimeoutError`
versus any other `Exception`). -/
inductive RecvResult where
  | got (type_tag : String) (payload : List Nat)
  | nothing
  | connError
  | otherError
deriving DecidableEq

/-- Oracle inputs consumed by one iteration of the read loop: whether a
concurrent `stop()` landed before the `while self.running` check, the
value of `time.time()` observed, the `random.randint` draw used if the
window rolls over, the `get_message` result, the `random.uniform`
sleep draw used if the budget is exhausted, and the rounds driving a
`reconnect()` call if one happens. -/
structure IterInput where
  stopBefore : Bool
  now : ℚ
  newLimit : Nat
  recv : RecvResult
  sleepDraw : ℚ
  rounds : List Round
deriving DecidableEq

/-- A record of one window rollover: the value of
`bytes_read_in_current_second` and the `current_byte_limit` in force at
the instant lines 109-112 reset the window. -/
structure ResetEvent where
  preBytes : Nat
  limit : Nat
deriving DecidableEq

/-- The window-rollover update at lines 108-112: when at least one
second has elapsed since `last_read_time`, zero the window counter,
advance `last_read_time` and draw a new byte limit. -/
def windowStep (ls : LoopState) (now : ℚ) (newLimit : Nat) : LoopState :=
  if now - ls.last_read_time ≥ 1 then
    { last_read_time := now, bytes_read_in_current_second := 0,
      current_byte_limit := newLimit }
  else ls

/-- The `ResetEvent` (if any) produced by the window-rollover check of
one iteration. -/
def windowEvents (ls : LoopState) (now : ℚ) : List ResetEvent :=
  if now - ls.last_read_time ≥ 1 then
    [{ preBytes := ls.bytes_read_in_current_second,
       limit := ls.current_byte_limit }]
  else []

/-- How one iteration of the read loop ends: fall through to the next
`while` check, `break` out of the loop (reconnect returned `False`), or
hang inside `reconnect` (its oracle rounds ran out with the inner loop
still spinning). -/
inductive IterExit where
  | cont
  | brk
  | stuck
deriving DecidableEq

/-- Result of one read-loop iteration. -/
structure IterResult where
  rs : SlowReader
  ls : LoopState
  ex : IterExit
  events : List ResetEvent
deriving DecidableEq

/-- The body of the `while self.running` loop of
`SlowReader.read_loop` (lines 106-137): roll the window over if a
second has elapsed; if the window counter is below the limit, receive
one message and, when its type is `'message'`, add
`len(str(message['data']))` to the window counter and to
`stats.bytes_read` and increment `stats.messages_received`; otherwise
sleep a random time.  A `ConnectionError`/`TimeoutError` from
`get_message` triggers `reconnect()` when `running` is set, breaking
out of the loop if it returns `False`; any other exception is logged
and followed by a one-second sleep. -/
def SlowReader.read_loop_body (rs : SlowReader) (ls : LoopState) (inp : IterInput) :
    IterResult :=
  let ls1 := windowStep ls inp.now inp.newLimit
  let evs := windowEvents ls inp.now
  if ls1.bytes_read_in_current_second < ls1.current_byte_limit then
    match inp.recv with
    | .got type_tag payload =>
      if type_tag = "message" then
        let data_size := pyBytesReprLen payload
        { rs := { rs with stats := { rs.stats with
            bytes_read := rs.stats.bytes_read + data_size,
            messages_received := rs.stats.messages_received + 1 } },
          ls := { ls1 with bytes_read_in_current_second :=
            ls1.bytes_read_in_current_second + data_size },
          ex := .cont, events := evs }
      else
        { rs := rs, ls := ls1, ex := .cont, events := evs }
    | .nothing => { rs := rs, ls := ls1, ex := .cont, events := evs }
    | .connError =>
      if rs.running then
        let r := SlowReader.reconnect rs inp.rounds
        match r.outcome with
        | some true => { rs := r.rs, ls := ls1, ex := .cont, events := evs }
        | some false => { rs := r.rs, ls := ls1, ex := .brk, events := evs }
        | none => { rs := r.rs, ls := ls1, ex := .stuck, events := evs }
      else
        { rs := rs, ls := ls1, ex := .cont, events := evs }
    | .otherError => { rs := rs, ls := ls1, ex := .cont, events := evs }
  else
    { rs := rs, ls := ls1, ex := .cont, events := evs }

/-- Final state of a (partial) run of the read loop. -/
structure RunResult where
  rs : SlowReader
  ls : LoopState
  events : List ResetEvent
deriving DecidableEq

/-- The `while self.running` loop of `SlowReader.read_loop`, driven by
a finite trace of iteration inputs; it stops early when the loop
`break`s, hangs in `reconnect`, or `running` is observed false. -/
def SlowReader.read_loop_run : SlowReader → LoopState → List IterInput → RunResult
  | rs, ls, [] => { rs := rs, ls := ls, events := [] }
  | rs, ls, inp :: rest =>
    let rs1 := if inp.stopBefore then { rs with running := false } else rs
    if rs1.running then
      let r := SlowReader.read_loop_body rs1 ls inp
      match r.ex with
      | .cont =>
        let r2 := SlowReader.read_loop_run r.rs r.ls rest
        { rs := r2.rs, ls := r2.ls, events := r.events ++ r2.events }
      | _ => { rs := r.rs, ls := r.ls, events := r.events }
    else
      { rs := rs1, ls := ls, events := [] }

/-- `SlowReader.read_loop` (lines 101-137): initialise the local
window state (`last_read_time = time.time()`, zero counter, an initial
random byte limit) and run the loop. -/
def SlowReader.read_loop (rs : SlowReader) (t0 : ℚ) (limit0 : Nat)
    (trace : List IterInput) : RunResult :=
  SlowReader.read_loop_run rs
    { last_read_time := t0, bytes_read_in_current_second := 0,
      current_byte_limit := limit0 } trace

/-- `Publisher` instance attributes (lines 148-156).  `client_open`
abstracts the `redis.Redis` client handle. -/
structure Publisher where
  channel : String
  min_message_size : Nat
  max_message_size : Nat
  running : Bool
  messages_sent : Nat
  total_bytes_sent : Nat
  client_open : Bool
deriving DecidableEq

/-- `Publisher.stop` (lines 175-178): sets `running = False` and closes
the client. -/
def Publisher.stop (p : Publisher) : Publisher :=
  { p with running := false, client_open := false }

/-- One line of the final report printed by
`BufferTester.print_stats` (lines 237-255). -/
inductive ReportItem where
  | messagesSent (n : Nat)
  | bytesSent (n : Nat)
  | avgMessageSize (q : ℚ)
  | messagesReceivedTotal (n : Nat)
  | bytesReadTotal (n : Nat)
  | reconnectionsTotal (n : Nat)
  | perConnection (i : Nat) (s : ConnectionStats)
deriving DecidableEq

/-- `BufferTester.print_stats` (lines 237-255): publisher totals, the
average message size line only under `if self.publisher.messages_sent
> 0`, the three aggregate sums over the readers, then the
per-connection breakdown (connections numbered from 1). -/
def BufferTester.print_stats (readers : List ConnectionStats) (pub : Publisher) :
    List ReportItem :=
  let total_bytes_read := (readers.map ConnectionStats.bytes_read).sum
  let total_messages_received := (readers.map ConnectionStats.messages_received).sum
  let total_reconnections := (readers.map ConnectionStats.reconnection_attempts).sum
  [ReportItem.messagesSent pub.messages_sent,
   ReportItem.bytesSent pub.total_bytes_sent]
  ++ (if 0 < pub.messages_sent then
        [ReportItem.avgMessageSize
          ((pub.total_bytes_sent : ℚ) / (pub.messages_sent : ℚ))]
      else [])
  ++ [ReportItem.messagesReceivedTotal total_messages_received,
      ReportItem.bytesReadTotal total_bytes_read,
      ReportItem.reconnectionsTotal total_reconnections]
  ++ readers.enum.map (fun p => ReportItem.perConnection (p.1 + 1) p.2)

/-- Whether a report line is the average-message-size line. -/
def ReportItem.isAvg : ReportItem → Bool
  | .avgMessageSize _ => true
  | _ => false

/-- Whether a report contains an average-message-size line. -/
def containsAvg (report : List ReportItem) : Bool :=
  report.any ReportItem.isAvg

/-- The externally observable calls made during shutdown, in program
order. -/
inductive StopAction where
  | stopPublisher
  | joinPublisher
  | stopReader (i : Nat)
  | joinReader (i : Nat)
  | printStats
deriving DecidableEq

/-- `BufferTester.stop` (lines 224-235) with `n` readers: stop the
publisher, join the publisher thread, then stop every reader, then
join every reader thread. -/
def BufferTester.stop_actions (n : Nat) : List StopAction :=
  StopAction.stopPublisher :: StopAction.joinPublisher ::
    ((List.range n).map StopAction.stopReader
      ++ (List.range n).map StopAction.joinReader)

/-- The shutdown sequence `tester.stop(); tester.print_stats()` run by
the `signal_handler` installed in `main` (lines 318-322). -/
def signal_handler_actions (n : Nat) : List StopAction :=
  BufferTester.stop_actions n ++ [StopAction.printStats]

/-- The same shutdown sequence run at the end of `main` after the
duration sleep (lines 334-337). -/
def duration_end_actions (n : Nat) : List StopAction :=
  BufferTester.stop_actions n ++ [StopAction.printStats]

/-- The command-line arguments of `slowPubSubReconnect.py` after
`parse_args` (lines 258-281).  Sizes and counts are `int`-typed in
argparse (so possibly negative); the sleep times are floats, embedded
as rationals. -/
structure Args where
  host : String
  port : Int
  connections : Int
  min_bytes_recv : Int
  max_bytes_recv : Int
  min_recv_sleep_time : ℚ
  max_recv_sleep_time : ℚ
  min_message_size : Int
  max_message_size : Int
  duration : Int
deriving DecidableEq

/-- Externally observable startup steps of `main`. -/
inductive StartAction where
  | printConfigError
  | pingBroker
  | printPingError
  | constructTester
  | startThreads
deriving DecidableEq

/-- The startup phase of `main` (lines 283-334): validate the three
ranges in order, exiting with code 1 on the first violation; then ping
the broker (exit 1 on failure); then construct the `BufferTester` and
start all threads.  Returns the actions performed and the exit code if
the process exits during startup. -/
def main_startup (a : Args) (pingOk : Bool) : List StartAction × Option Int :=
  if a.min_message_size > a.max_message_size then
    ([StartAction.printConfigError], some 1)
  else if a.min_bytes_recv > a.max_bytes_recv then
    ([StartAction.printConfigError], some 1)
  else if a.min_recv_sleep_time > a.max_recv_sleep_time then
    ([StartAction.printConfigError], some 1)
  else if pingOk then
    ([StartAction.pingBroker, StartAction.constructTester,
      StartAction.startThreads], none)
  else
    ([StartAction.pingBroker, StartAction.printPingError], some 1)

/-! ### Helper lemmas -/

/-- The backoff loop never touches the statistics counters. -/
lemma reconnectLoop_stats : ∀ (rounds : List Round) (rs : SlowReader),
    (SlowReader.reconnectLoop rs rounds).rs.stats = rs.stats := by
  intro rounds
  induction rounds with
  | nil => intro rs; rfl
  | cons r rest ih =>
    intro rs
    rcases r with ⟨stopReq, co⟩
    cases co <;> cases stopReq <;>
      simp [SlowReader.reconnectLoop, SlowReader.connect, ih] <;>
      split <;> simp [ih]

/-- `SlowReader.reconnect` increments `reconnection_attempts` by one and
leaves the other two counters unchanged, whatever happens inside the
backoff loop. -/
lemma reconnect_stats (rs : SlowReader) (rounds : List Round) :
    (SlowReader.reconnect rs rounds).rs.stats =
      { rs.stats with reconnection_attempts := rs.stats.reconnection_attempts + 1 } := by
  simp [SlowReader.reconnect, reconnectLoop_stats]

/-- When the backoff loop returns `True` it has just run a successful
`connect`, which resets `reconnect_delay` to 1. -/
lemma reconnectLoop_success_delay : ∀ (rounds : List Round) (rs : SlowReader),
    (SlowReader.reconnectLoop rs rounds).outcome = some true →
    (SlowReader.reconnectLoop rs rounds).rs.reconnect_delay = 1 := by
  intro rounds
  induction rounds with
  | nil => intro rs h; simp [SlowReader.reconnectLoop] at h
  | cons r rest ih =>
    intro rs h
    rcases r with ⟨stopReq, co⟩
    cases co <;> cases stopReq <;>
      simp_all [SlowReader.reconnectLoop, SlowReader.connect] <;>
      · split at h <;> simp_all [ih]

/-- Doubling a capped power of two and recapping yields the next capped
power of two. -/
lemma min_double_cap (i : Nat) : min (min (2 ^ i) 30 * 2) 30 = min (2 ^ (i + 1)) 30 := by
  rcases Nat.le_total (2 ^ i) 30 with h | h
  · rw [Nat.min_eq_left h, pow_succ]
  · have h2 : (30 : Nat) ≤ 2 ^ (i + 1) :=
      le_trans h (le_trans (Nat.pow_le_pow_right (by norm_num) (Nat.le_succ i)) le_rfl)
    rw [Nat.min_eq_right h, Nat.min_eq_right h2, Nat.min_eq_right (by norm_num)]

/-- One failed round of the backoff loop: the reader sleeps the current
delay, the delay doubles (capped), and the loop continues on the rest
of the rounds. -/
lemma reconnectLoop_failRound (rs : SlowReader) (rest : List Round)
    (hrun : rs.running = true) :
    SlowReader.reconnectLoop rs (failRound :: rest) =
      { SlowReader.reconnectLoop
          { rs with
            handle_open := false,
            reconnect_delay := min (rs.reconnect_delay * 2) rs.max_reconnect_delay }
          rest with
        sleeps := rs.reconnect_delay ::
          (SlowReader.reconnectLoop
            { rs with
              handle_open := false,
              reconnect_delay := min (rs.reconnect_delay * 2) rs.max_reconnect_delay }
            rest).sleeps } := by
  conv_lhs => rw [SlowReader.reconnectLoop]
  simp [failRound, SlowReader.connect, hrun]

/-- Backoff schedule of the reconnect loop: starting from a delay of
`min (2^i) 30` with the cap at 30, the `j`-th sleep performed across a
run of failed rounds is `min (2^(i+j)) 30`. -/
lemma reconnectLoop_sleeps_fail :
    ∀ (n i : Nat) (rs : SlowReader) (rest : List Round),
      rs.running = true → rs.max_reconnect_delay = 30 →
      rs.reconnect_delay = min (2 ^ i) 30 →
      ∀ j, j < n →
        ((SlowReader.reconnectLoop rs (List.replicate n failRound ++ rest)).sleeps)[j]? =
          some (min (2 ^ (i + j)) 30) := by
  intro n
  induction n with
  | zero => intro i rs rest _ _ _ j hj; omega
  | succ n ih =>
    intro i rs rest hrun hmax hdelay j hj
    rw [List.replicate_succ, List.cons_append, reconnectLoop_failRound rs _ hrun]
    cases j with
    | zero => simp [hdelay]
    | succ j =>
      have hd : ({ rs with
          handle_open := false,
          reconnect_delay := min (rs.reconnect_delay * 2) rs.max_reconnect_delay
          : SlowReader }).reconnect_delay = min (2 ^ (i + 1)) 30 := by
        show min (rs.reconnect_delay * 2) rs.max_reconnect_delay = min (2 ^ (i + 1)) 30
        rw [hdelay, hmax]
        exact min_double_cap i
      have hrec := ih (i + 1)
        { rs with
          handle_open := false,
          reconnect_delay := min (rs.reconnect_delay * 2) rs.max_reconnect_delay }
        rest hrun hmax hd j (by omega)
      have harith : i + 1 + j = i + (j + 1) := by omega
      rw [harith] at hrec
      simpa using hrec

/-! ### Concrete fixtures for counterexamples and witnesses -/

/-- A `SlowReader` as built by `__init__` with the script's default
receive-rate configuration and a successful initial connect. -/
def rsC : SlowReader :=
  SlowReader.init "localhost" 6379 "test_channel" 500 1500 0 1 ConnectOutcome.ok

/-- A reconnect round in which `connect()` succeeds. -/
def okRound : Round := { stopRequested := false, outcome := ConnectOutcome.ok }

/-- Two read-loop iterations: at time 0 a 1-byte data message arrives
while the byte limit is 1; at time 1 the window rolls over. -/
def c1trace : List IterInput :=
  [{ stopBefore := false, now := 0, newLimit := 0,
     recv := RecvResult.got "message" [120], sleepDraw := 0, rounds := [] },
   { stopBefore := false, now := 1, newLimit := 7,
     recv := RecvResult.nothing, sleepDraw := 0, rounds := [] }]

/-! ### Claim C2: reconnect backoff schedule -/

/-- Claim C2 counterexample: in an episode starting from a freshly
reset delay, the sleep before the 2nd connect attempt is 1 time unit,
not `min (2^(2-1), 30) = 2` as the claim states. -/
theorem c2_counterexample :
    (SlowReader.reconnect rsC [failRound, okRound]).sleeps = [1] ∧
    ¬ ((1 : Nat) = min (2 ^ (2 - 1)) 30) := by
  constructor
  · decide
  · decide

/-- Claim C2 (amended): in the `SlowReader` reconnect loop entered with
`reconnect_delay = 1` (the value after any successful connect), the
delay slept before the `k`-th connect attempt of the episode (`k ≥ 2`)
is `min (2^(k-2), 30)` time units, and whenever `reconnect` returns
`True` the delay has been reset to 1 by the successful `connect`. -/
theorem c2_backoff_schedule (rs : SlowReader) (rest : List Round) (k : Nat)
    (hrun : rs.running = true) (hdelay : rs.reconnect_delay = 1)
    (hmax : rs.max_reconnect_delay = 30) (hk : 2 ≤ k) :
    ((SlowReader.reconnect rs (List.replicate (k - 1) failRound ++ rest)).sleeps)[k - 2]? =
      some (min (2 ^ (k - 2)) 30) ∧
    ∀ (rs2 : SlowReader) (rounds : List Round),
      (SlowReader.reconnect rs2 rounds).outcome = some true →
      (SlowReader.reconnect rs2 rounds).rs.reconnect_delay = 1 := by
  constructor
  · have h0 := reconnectLoop_sleeps_fail (k - 1) 0
      { rs with
        stats := { rs.stats with
          reconnection_attempts := rs.stats.reconnection_attempts + 1 } }
      rest hrun hmax (by show rs.reconnect_delay = min (2 ^ 0) 30; rw [hdelay]; decide)
      (k - 2) (by omega)
    simp only [SlowReader.reconnect]
    simpa [Nat.zero_add] using h0
  · intro rs2 rounds h
    exact reconnectLoop_success_delay rounds _ h

/-- Witness for `c2_backoff_schedule` at `k = 2` on a concrete
reader. -/
theorem c2_backoff_schedule_witness :
    rsC.running = true ∧ rsC.reconnect_delay = 1 ∧ rsC.max_reconnect_delay = 30 ∧
    2 ≤ 2 ∧
    (((SlowReader.reconnect rsC (List.replicate (2 - 1) failRound ++ [])).sleeps)[2 - 2]? =
        some (min (2 ^ (2 - 2)) 30) ∧
      ∀ (rs2 : SlowReader) (rounds : List Round),
        (SlowReader.reconnect rs2 rounds).outcome = some true →
        (SlowReader.reconnect rs2 rounds).rs.reconnect_delay = 1) :=
  ⟨rfl, rfl, rfl, by norm_num,
    c2_backoff_schedule rsC [] 2 rfl rfl rfl (by norm_num)⟩

/-! ### Claim C3: one attempt-counter increment per episode -/

/-- Claim C3: entering `SlowReader.reconnect` increments
`stats.reconnection_attempts` by exactly 1 whatever sequence of failed
backoff rounds (or a stop request) follows, and one read-loop
iteration increments it exactly when the iteration enters `reconnect`,
i.e. when the window is open, `get_message` raises a connection-class
error, and the reader is still running. -/
theorem c3_reconnection_attempts_once (rs : SlowReader) (rounds : List Round)
    (ls : LoopState) (inp : IterInput) :
    (SlowReader.reconnect rs rounds).rs.stats.reconnection_attempts =
      rs.stats.reconnection_attempts + 1 ∧
    (SlowReader.read_loop_body rs ls inp).rs.stats.reconnection_attempts =
      rs.stats.reconnection_attempts +
        (if (windowStep ls inp.now inp.newLimit).bytes_read_in_current_second <
              (windowStep ls inp.now inp.newLimit).current_byte_limit ∧
            inp.recv = RecvResult.connError ∧ rs.running = true
         then 1 else 0) := by
  constructor
  · rw [reconnect_stats]
  · rcases inp with ⟨sb, now, nl, recv, sd, rounds2⟩
    simp only [SlowReader.read_loop_body]
    by_cases hg : (windowStep ls now nl).bytes_read_in_current_second <
        (windowStep ls now nl).current_byte_limit
    · cases recv with
      | got type_tag payload =>
        by_cases ht : type_tag = "message" <;> simp [hg, ht]
      | nothing => simp [hg]
      | connError =>
        by_cases hr : rs.running
        · rcases ho : (SlowReader.reconnect rs rounds2).outcome with _ | b
          · simp [hg, hr, ho, reconnect_stats]
          · cases b <;> simp [hg, hr, ho, reconnect_stats]
        · simp [hg, hr]
      | otherError => simp [hg]
    · simp [hg]

/-! ### Claim C1: the window counter versus the byte budget -/

/-- The amount a `get_message` result contributes to the byte counters:
`len(str(message['data']))` for a message with type tag `'message'`,
and 0 for everything else. -/
def recvCountedSize (r : RecvResult) : Nat :=
  match r with
  | .got type_tag payload =>
    if type_tag = "message" then pyBytesReprLen payload else 0
  | _ => 0

/-- Invariant of the read-loop window state when every counted message
is at most `M` bytes of accounting: the window counter is zero, or it
was strictly below the limit just before its last increment of at most
`M`. -/
def windowInv (M : Nat) (ls : LoopState) : Prop :=
  ls.bytes_read_in_current_second = 0 ∨
    ∃ pre m, ls.bytes_read_in_current_second = pre + m ∧
      pre < ls.current_byte_limit ∧ m ≤ M

/-- The window rollover preserves `windowInv` (it zeroes the
counter). -/
lemma windowStep_inv (M : Nat) (ls : LoopState) (now : ℚ) (nl : Nat)
    (h : windowInv M ls) : windowInv M (windowStep ls now nl) := by
  unfold windowStep
  split
  · left; rfl
  · exact h

/-- Any reset event recorded by the rollover check satisfies the
overshoot bound when the pre-state satisfies `windowInv`. -/
lemma windowEvents_ok (M : Nat) (ls : LoopState) (now : ℚ)
    (h : windowInv M ls) :
    ∀ e ∈ windowEvents ls now, e.preBytes = 0 ∨ e.preBytes < e.limit + M := by
  unfold windowEvents
  split
  · intro e he
    simp only [List.mem_singleton] at he
    subst he
    rcases h with h | ⟨pre, m, hb, hlt, hm⟩
    · left; exact h
    · right
      simp only [hb]
      omega
  · intro e he
    simp at he

/-- One read-loop iteration preserves `windowInv` and only records
reset events within the overshoot bound, provided the received message
(if counted) contributes at most `M`. -/
lemma read_loop_body_window (M : Nat) (rs : SlowReader) (ls : LoopState)
    (inp : IterInput) (h : windowInv M ls) (hb : recvCountedSize inp.recv ≤ M) :
    windowInv M (SlowReader.read_loop_body rs ls inp).ls ∧
    ∀ e ∈ (SlowReader.read_loop_body rs ls inp).events,
      e.preBytes = 0 ∨ e.preBytes < e.limit + M := by
  have h1 := windowStep_inv M ls inp.now inp.newLimit h
  have h2 := windowEvents_ok M ls inp.now h
  rcases inp with ⟨sb, now, nl, recv, sd, rounds⟩
  simp only [SlowReader.read_loop_body]
  by_cases hg : (windowStep ls now nl).bytes_read_in_current_second <
      (windowStep ls now nl).current_byte_limit
  · cases recv with
    | got type_tag payload =>
      by_cases ht : type_tag = "message"
      · simp only [recvCountedSize, ht, if_pos] at hb
        refine ⟨?_, by simpa [hg, ht] using h2⟩
        simp only [hg, ht, if_pos, if_true]
        right
        exact ⟨(windowStep ls now nl).bytes_read_in_current_second,
          pyBytesReprLen payload, rfl, hg, hb⟩
      · simp only [hg, ht, if_true, if_false]
        exact ⟨h1, by simpa using h2⟩
    | nothing => simpa [hg] using ⟨h1, h2⟩
    | connError =>
      by_cases hr : rs.running
      · rcases ho : (SlowReader.reconnect rs rounds).outcome with _ | b
        · simpa [hg, hr, ho] using ⟨h1, h2⟩
        · cases b <;> simpa [hg, hr, ho] using ⟨h1, h2⟩
      · simpa [hg, hr] using ⟨h1, h2⟩
    | otherError => simpa [hg] using ⟨h1, h2⟩
  · simpa [hg] using ⟨h1, h2⟩

/-- Run-level version of `read_loop_body_window`: every reset event
recorded along a run satisfies the overshoot bound. -/
lemma read_loop_run_window (M : Nat) :
    ∀ (trace : List IterInput) (rs : SlowReader) (ls : LoopState),
      windowInv M ls → (∀ i ∈ trace, recvCountedSize i.recv ≤ M) →
      ∀ e ∈ (SlowReader.read_loop_run rs ls trace).events,
        e.preBytes = 0 ∨ e.preBytes < e.limit + M := by
  intro trace
  induction trace with
  | nil =>
    intro rs ls _ _ e he
    simp [SlowReader.read_loop_run] at he
  | cons inp rest ih =>
    intro rs ls hinv htrace e he
    have hinp : recvCountedSize inp.recv ≤ M := htrace inp (by simp)
    have hrest : ∀ i ∈ rest, recvCountedSize i.recv ≤ M :=
      fun i hi => htrace i (by simp [hi])
    set rs1 := if inp.stopBefore then { rs with running := false } else rs with hrs1
    have hbody := read_loop_body_window M rs1 ls inp hinv hinp
    simp only [SlowReader.read_loop_run, ← hrs1] at he
    by_cases hr : rs1.running = true
    · rw [if_pos hr] at he
      rcases hex : (SlowReader.read_loop_body rs1 ls inp).ex with _ | _ | _
      · rw [hex] at he
        simp only [List.mem_append] at he
        rcases he with he | he
        · exact hbody.2 e he
        · exact ih _ _ hbody.1 hrest e he
      · rw [hex] at he
        exact hbody.2 e he
      · rw [hex] at he
        exact hbody.2 e he
    · rw [if_neg hr] at he
      simp at he

/-- Claim C1 counterexample: with an initial byte limit of 1 and a
single counted message of accounted size 4 arriving in the first
window, the window counter stands at 4 > 1 at the instant the window
resets, so the counter is not bounded by the budget at reset time. -/
theorem c1_counterexample :
    (SlowReader.read_loop rsC 0 1 c1trace).events = [{ preBytes := 4, limit := 1 }] ∧
    ¬ ((4 : Nat) ≤ 1) := by
  constructor
  · norm_num [SlowReader.read_loop, SlowReader.read_loop_run, SlowReader.read_loop_body,
      windowStep, windowEvents, rsC, c1trace, SlowReader.init, SlowReader.connect,
      pyBytesReprLen, pyByteEscLen]
  · norm_num

/-- Claim C1 (amended): at the instant a fully-elapsed one-second
window resets, the window counter is either zero or exceeds the budget
that was in force for that window by strictly less than the accounted
size of one received message: if every counted message accounts for at
most `M`, then `bytes_read_in_current_second < current_byte_limit + M`
(the counter was strictly below the budget just before its last
increment). -/
theorem c1_window_budget (rs : SlowReader) (t0 : ℚ) (limit0 M : Nat)
    (trace : List IterInput)
    (h : ∀ i ∈ trace, recvCountedSize i.recv ≤ M) :
    ∀ e ∈ (SlowReader.read_loop rs t0 limit0 trace).events,
      e.preBytes = 0 ∨ e.preBytes < e.limit + M := by
  exact read_loop_run_window M trace rs _ (Or.inl rfl) h

/-- Witness for `c1_window_budget` on the concrete two-iteration
trace. -/
theorem c1_window_budget_witness :
    (∀ i ∈ c1trace, recvCountedSize i.recv ≤ 4) ∧
    ∀ e ∈ (SlowReader.read_loop rsC 0 1 c1trace).events,
      e.preBytes = 0 ∨ e.preBytes < e.limit + 4 :=
  ⟨by decide, c1_window_budget rsC 0 1 4 c1trace (by decide)⟩

/-! ### Claim C4: what one counted message adds -/

/-- Window state with a wide-open budget. -/
def c4loopState : LoopState :=
  { last_read_time := 0, bytes_read_in_current_second := 0, current_byte_limit := 1000 }

/-- A data message carrying the single payload byte `0x78` (`b'x'`,
one byte). -/
def c4input : IterInput :=
  { stopBefore := false, now := 0, newLimit := 0,
    recv := RecvResult.got "message" [120], sleepDraw := 0, rounds := [] }

/-- A subscribe confirmation carrying the integer 1 rendered as a
payload; its type tag is not `'message'`. -/
def c4subInput : IterInput :=
  { stopBefore := false, now := 0, newLimit := 0,
    recv := RecvResult.got "subscribe" [49], sleepDraw := 0, rounds := [] }

/-- Claim C4 evaluated at the failing input: for a `'message'` whose
payload is the single byte `b'x'`, the code adds
`len(str(message['data'])) = len("b'x'") = 4` to `bytes_read` and to
the window counter — not the payload's byte length 1 — while
`messages_received` goes up by exactly 1 and a non-`'message'` receipt
changes no counter. -/
theorem c4_data_size_eval :
    (SlowReader.read_loop_body rsC c4loopState c4input).rs.stats.bytes_read = 4 ∧
    (SlowReader.read_loop_body rsC c4loopState c4input).ls.bytes_read_in_current_second = 4 ∧
    (SlowReader.read_loop_body rsC c4loopState c4input).rs.stats.messages_received = 1 ∧
    ([(120 : Nat)] : List Nat).length = 1 ∧ ¬ ((4 : Nat) = 1) ∧
    (SlowReader.read_loop_body rsC c4loopState c4subInput).rs.stats = rsC.stats ∧
    (SlowReader.read_loop_body rsC c4loopState c4subInput).ls.bytes_read_in_current_second = 0 := by
  refine ⟨?_, ?_, ?_, rfl, by norm_num, ?_, ?_⟩ <;>
    norm_num [SlowReader.read_loop_body, windowStep, windowEvents, rsC, SlowReader.init,
      SlowReader.connect, c4loopState, c4input, c4subInput, pyBytesReprLen, pyByteEscLen] <;>
    decide

/-! ### Claim C5: statistics counters -/

/-- Componentwise order on the three counters. -/
def statsLE (a b : ConnectionStats) : Prop :=
  a.bytes_read ≤ b.bytes_read ∧ a.messages_received ≤ b.messages_received ∧
    a.reconnection_attempts ≤ b.reconnection_attempts

lemma statsLE_refl (a : ConnectionStats) : statsLE a a := ⟨le_rfl, le_rfl, le_rfl⟩

lemma statsLE_trans {a b c : ConnectionStats} (h1 : statsLE a b) (h2 : statsLE b c) :
    statsLE a c :=
  ⟨le_trans h1.1 h2.1, le_trans h1.2.1 h2.2.1, le_trans h1.2.2 h2.2.2⟩

/-- One read-loop iteration never decreases any counter. -/
lemma read_loop_body_statsLE (rs : SlowReader) (ls : LoopState) (inp : IterInput) :
    statsLE rs.stats (SlowReader.read_loop_body rs ls inp).rs.stats := by
  rcases inp with ⟨sb, now, nl, recv, sd, rounds⟩
  simp only [SlowReader.read_loop_body]
  by_cases hg : (windowStep ls now nl).bytes_read_in_current_second <
      (windowStep ls now nl).current_byte_limit
  · cases recv with
    | got type_tag payload =>
      by_cases ht : type_tag = "message"
      · simp only [hg, ht, if_pos, if_true]
        exact ⟨Nat.le_add_right _ _, Nat.le_add_right _ _, le_rfl⟩
      · simp [hg, ht, statsLE_refl]
    | nothing => simp [hg, statsLE_refl]
    | connError =>
      by_cases hr : rs.running
      · rcases ho : (SlowReader.reconnect rs rounds).outcome with _ | b
        · simp [hg, hr, ho, reconnect_stats, statsLE]
        · cases b <;> simp [hg, hr, ho, reconnect_stats, statsLE]
      · simp [hg, hr, statsLE_refl]
    | otherError => simp [hg, statsLE_refl]
  · simp [hg, statsLE_refl]

/-- A run of the read loop never decreases any counter. -/
lemma read_loop_run_statsLE :
    ∀ (trace : List IterInput) (rs : SlowReader) (ls : LoopState),
      statsLE rs.stats (SlowReader.read_loop_run rs ls trace).rs.stats := by
  intro trace
  induction trace with
  | nil => intro rs ls; exact statsLE_refl _
  | cons inp rest ih =>
    intro rs ls
    simp only [SlowReader.read_loop_run]
    have hstats : (if inp.stopBefore then { rs with running := false } else rs).stats
        = rs.stats := by
      cases hsb : inp.stopBefore <;> simp
    set rs1 := if inp.stopBefore then { rs with running := false } else rs
    by_cases hr : rs1.running = true
    · rw [if_pos hr]
      rcases hex : (SlowReader.read_loop_body rs1 ls inp).ex with _ | _ | _ <;>
        rw [← hstats]
      · exact statsLE_trans (read_loop_body_statsLE rs1 ls inp) (ih _ _)
      · exact read_loop_body_statsLE rs1 ls inp
      · exact read_loop_body_statsLE rs1 ls inp
    · rw [if_neg hr, hstats]
      exact statsLE_refl _

/-- One iteration preserves "no messages implies no bytes". -/
lemma read_loop_body_msgs_zero (rs : SlowReader) (ls : LoopState) (inp : IterInput)
    (h : rs.stats.messages_received = 0 → rs.stats.bytes_read = 0) :
    (SlowReader.read_loop_body rs ls inp).rs.stats.messages_received = 0 →
    (SlowReader.read_loop_body rs ls inp).rs.stats.bytes_read = 0 := by
  rcases inp with ⟨sb, now, nl, recv, sd, rounds⟩
  simp only [SlowReader.read_loop_body]
  by_cases hg : (windowStep ls now nl).bytes_read_in_current_second <
      (windowStep ls now nl).current_byte_limit
  · cases recv with
    | got type_tag payload =>
      by_cases ht : type_tag = "message"
      · simp [hg, ht]
      · simpa [hg, ht] using h
    | nothing => simpa [hg] using h
    | connError =>
      by_cases hr : rs.running
      · rcases ho : (SlowReader.reconnect rs rounds).outcome with _ | b
        · simpa [hg, hr, ho, reconnect_stats] using h
        · cases b <;> simpa [hg, hr, ho, reconnect_stats] using h
      · simpa [hg, hr] using h
    | otherError => simpa [hg] using h
  · simpa [hg] using h

/-- A run preserves "no messages implies no bytes". -/
lemma read_loop_run_msgs_zero :
    ∀ (trace : List IterInput) (rs : SlowReader) (ls : LoopState),
      (rs.stats.messages_received = 0 → rs.stats.bytes_read = 0) →
      (SlowReader.read_loop_run rs ls trace).rs.stats.messages_received = 0 →
      (SlowReader.read_loop_run rs ls trace).rs.stats.bytes_read = 0 := by
  intro trace
  induction trace with
  | nil => intro rs ls h; simpa [SlowReader.read_loop_run] using h
  | cons inp rest ih =>
    intro rs ls h
    simp only [SlowReader.read_loop_run]
    have hstats : (if inp.stopBefore then { rs with running := false } else rs).stats
        = rs.stats := by
      cases hsb : inp.stopBefore <;> simp
    set rs1 := if inp.stopBefore then { rs with running := false } else rs
    have h1 : rs1.stats.messages_received = 0 → rs1.stats.bytes_read = 0 := by
      rw [hstats]; exact h
    by_cases hr : rs1.running = true
    · rw [if_pos hr]
      rcases hex : (SlowReader.read_loop_body rs1 ls inp).ex with _ | _ | _
      · exact ih _ _ (read_loop_body_msgs_zero rs1 ls inp h1)
      · exact read_loop_body_msgs_zero rs1 ls inp h1
      · exact read_loop_body_msgs_zero rs1 ls inp h1
    · rw [if_neg hr]
      exact h1

/-- `__init__` zeroes the statistics whatever the initial connect
outcome. -/
lemma init_stats (host : String) (port : Nat) (channel : String)
    (mnb mxb : Nat) (mns mxs : ℚ) (co : ConnectOutcome) :
    (SlowReader.init host port channel mnb mxb mns mxs co).stats =
      { bytes_read := 0, messages_received := 0, reconnection_attempts := 0 } := by
  cases co <;> rfl

/-- Claim C5: over the whole lifetime of a `SlowReader` started by
`__init__`, zero `messages_received` forces zero `bytes_read`; all
three counters are non-negative and non-decreasing under any run of
the read loop from any state; and the orchestrator's only call into a
reader, `stop()`, leaves the counters untouched. -/
theorem c5_stats_invariants (host : String) (port : Nat) (channel : String)
    (mnb mxb : Nat) (mns mxs : ℚ) (co : ConnectOutcome) (t0 : ℚ) (limit0 : Nat)
    (trace : List IterInput) (rs2 : SlowReader) (ls2 : LoopState)
    (trace2 : List IterInput) (r : SlowReader) :
    ((SlowReader.read_loop (SlowReader.init host port channel mnb mxb mns mxs co)
        t0 limit0 trace).rs.stats.messages_received = 0 →
      (SlowReader.read_loop (SlowReader.init host port channel mnb mxb mns mxs co)
        t0 limit0 trace).rs.stats.bytes_read = 0) ∧
    statsLE rs2.stats (SlowReader.read_loop_run rs2 ls2 trace2).rs.stats ∧
    0 ≤ (SlowReader.read_loop_run rs2 ls2 trace2).rs.stats.bytes_read ∧
    0 ≤ (SlowReader.read_loop_run rs2 ls2 trace2).rs.stats.messages_received ∧
    0 ≤ (SlowReader.read_loop_run rs2 ls2 trace2).rs.stats.reconnection_attempts ∧
    (SlowReader.stop r).stats = r.stats := by
  refine ⟨?_, read_loop_run_statsLE trace2 rs2 ls2, Nat.zero_le _, Nat.zero_le _,
    Nat.zero_le _, rfl⟩
  exact read_loop_run_msgs_zero trace _ _ (by rw [init_stats]; intro; rfl)

/-- Witness for `c5_stats_invariants` on a concrete reader with the
empty trace. -/
theorem c5_stats_invariants_witness :
    (SlowReader.read_loop (SlowReader.init "localhost" 6379 "test_channel"
        500 1500 0 1 ConnectOutcome.ok) 0 10 []).rs.stats.messages_received = 0 ∧
    (SlowReader.read_loop (SlowReader.init "localhost" 6379 "test_channel"
        500 1500 0 1 ConnectOutcome.ok) 0 10 []).rs.stats.bytes_read = 0 ∧
    statsLE rsC.stats (SlowReader.read_loop_run rsC c4loopState []).rs.stats ∧
    (SlowReader.stop rsC).stats = rsC.stats :=
  ⟨rfl,
   (c5_stats_invariants "localhost" 6379 "test_channel" 500 1500 0 1
      ConnectOutcome.ok 0 10 [] rsC c4loopState [] rsC).1 rfl,
   (c5_stats_invariants "localhost" 6379 "test_channel" 500 1500 0 1
      ConnectOutcome.ok 0 10 [] rsC c4loopState [] rsC).2.1,
   (c5_stats_invariants "localhost" 6379 "test_channel" 500 1500 0 1
      ConnectOutcome.ok 0 10 [] rsC c4loopState [] rsC).2.2.2.2.2⟩

/-! ### Claim C6: range validation before any network interaction -/

/-- Claim C6: whenever any of the three configured ranges has
`min > max`, `main` prints a configuration error and exits with code 1,
performing no broker ping, constructing no `BufferTester` (hence no
subscriber or publisher), and starting no thread. -/
theorem c6_validation (a : Args) (pingOk : Bool)
    (h : a.min_message_size > a.max_message_size ∨
      a.min_bytes_recv > a.max_bytes_recv ∨
      a.min_recv_sleep_time > a.max_recv_sleep_time) :
    main_startup a pingOk = ([StartAction.printConfigError], some 1) ∧
    StartAction.pingBroker ∉ (main_startup a pingOk).1 ∧
    StartAction.constructTester ∉ (main_startup a pingOk).1 ∧
    StartAction.startThreads ∉ (main_startup a pingOk).1 := by
  have he : main_startup a pingOk = ([StartAction.printConfigError], some 1) := by
    unfold main_startup
    by_cases h1 : a.min_message_size > a.max_message_size
    · rw [if_pos h1]
    · by_cases h2 : a.min_bytes_recv > a.max_bytes_recv
      · rw [if_neg h1, if_pos h2]
      · by_cases h3 : a.min_recv_sleep_time > a.max_recv_sleep_time
        · rw [if_neg h1, if_neg h2, if_pos h3]
        · rcases h with h | h | h <;> contradiction
  refine ⟨he, ?_, ?_, ?_⟩ <;> rw [he] <;> decide

/-- Default arguments except that the message-size range is inverted. -/
def argsBad : Args :=
  { host := "localhost", port := 6379, connections := 5,
    min_bytes_recv := 500, max_bytes_recv := 1500,
    min_recv_sleep_time := 0, max_recv_sleep_time := 1,
    min_message_size := 1000, max_message_size := 100, duration := 60 }

/-- Witness for `c6_validation` on a concrete inverted range. -/
theorem c6_validation_witness :
    (argsBad.min_message_size > argsBad.max_message_size ∨
      argsBad.min_bytes_recv > argsBad.max_bytes_recv ∨
      argsBad.min_recv_sleep_time > argsBad.max_recv_sleep_time) ∧
    (main_startup argsBad true = ([StartAction.printConfigError], some 1) ∧
      StartAction.pingBroker ∉ (main_startup argsBad true).1 ∧
      StartAction.constructTester ∉ (main_startup argsBad true).1 ∧
      StartAction.startThreads ∉ (main_startup argsBad true).1) :=
  ⟨Or.inl (by decide), c6_validation argsBad true (Or.inl (by decide))⟩

/-! ### Claim C7: shutdown ordering -/

/-- The `i`-th element of a mapped range. -/
lemma range_map_getElem {β : Type} (f : Nat → β) (n i : Nat) (h : i < n) :
    ((List.range n).map f)[i]? = some (f i) := by
  rw [List.getElem?_map, List.getElem?_range h]
  rfl

/-- Claim C7: on both shutdown triggers (signal handler and duration
expiry) the orchestrator performs the same sequence: the publisher is
stopped at position 0 and its thread joined at position 1, every
subscriber stop sits at position `2 + i` (after the publisher join),
every subscriber join at position `2 + n + i` (after every stop), and
the statistics report is the last action, at position `2 + n + n` of a
`2 + n + n + 1`-long sequence. -/
theorem c7_shutdown_order (n i : Nat) (h : i < n) :
    signal_handler_actions n = duration_end_actions n ∧
    (signal_handler_actions n)[0]? = some StopAction.stopPublisher ∧
    (signal_handler_actions n)[1]? = some StopAction.joinPublisher ∧
    (signal_handler_actions n)[2 + i]? = some (StopAction.stopReader i) ∧
    (signal_handler_actions n)[2 + n + i]? = some (StopAction.joinReader i) ∧
    (signal_handler_actions n)[2 + n + n]? = some StopAction.printStats ∧
    (signal_handler_actions n).length = 2 + n + n + 1 := by
  have hs : signal_handler_actions n =
      StopAction.stopPublisher :: StopAction.joinPublisher ::
        (((List.range n).map StopAction.stopReader
          ++ (List.range n).map StopAction.joinReader)
          ++ [StopAction.printStats]) := rfl
  refine ⟨rfl, by rw [hs]; rfl, by rw [hs]; simp, ?_, ?_, ?_, ?_⟩
  · rw [hs, show 2 + i = i + 1 + 1 from by omega,
      List.getElem?_cons_succ, List.getElem?_cons_succ,
      List.getElem?_append_left (by simp; omega),
      List.getElem?_append_left (by simp [h])]
    exact range_map_getElem _ n i h
  · rw [hs, show 2 + n + i = n + i + 1 + 1 from by omega,
      List.getElem?_cons_succ, List.getElem?_cons_succ,
      List.getElem?_append_left (by simp; omega),
      List.getElem?_append_right (by simp),
      List.length_map, List.length_range, Nat.add_sub_cancel_left]
    exact range_map_getElem _ n i h
  · rw [hs, show 2 + n + n = n + n + 1 + 1 from by omega,
      List.getElem?_cons_succ, List.getElem?_cons_succ,
      List.getElem?_append_right (by simp)]
    simp
  · rw [hs]
    simp
    omega

/-- Witness for `c7_shutdown_order` with two readers. -/
theorem c7_shutdown_order_witness :
    (0 : Nat) < 2 ∧
    (signal_handler_actions 2 = duration_end_actions 2 ∧
      (signal_handler_actions 2)[0]? = some StopAction.stopPublisher ∧
      (signal_handler_actions 2)[1]? = some StopAction.joinPublisher ∧
      (signal_handler_actions 2)[2 + 0]? = some (StopAction.stopReader 0) ∧
      (signal_handler_actions 2)[2 + 2 + 0]? = some (StopAction.joinReader 0) ∧
      (signal_handler_actions 2)[2 + 2 + 2]? = some StopAction.printStats ∧
      (signal_handler_actions 2).length = 2 + 2 + 2 + 1) :=
  ⟨by norm_num, c7_shutdown_order 2 0 (by norm_num)⟩

/-! ### Claim C8: stop is idempotent -/

/-- Claim C8: `stop()` is idempotent for both the reader and the
publisher — a second call yields exactly the state of the first call,
the running flag stays false, and no counter changes. -/
theorem c8_stop_idempotent (r : SlowReader) (p : Publisher) :
    SlowReader.stop (SlowReader.stop r) = SlowReader.stop r ∧
    Publisher.stop (Publisher.stop p) = Publisher.stop p ∧
    (SlowReader.stop r).running = false ∧
    (SlowReader.stop r).stats = r.stats ∧
    (Publisher.stop p).running = false ∧
    (Publisher.stop p).messages_sent = p.messages_sent ∧
    (Publisher.stop p).total_bytes_sent = p.total_bytes_sent :=
  ⟨rfl, rfl, rfl, rfl, rfl, rfl, rfl⟩

/-! ### Claim C9: the final report and the average message size -/

/-- A publisher that has sent nothing. -/
def pubC0 : Publisher :=
  { channel := "test_channel", min_message_size := 100, max_message_size := 1000,
    running := false, messages_sent := 0, total_bytes_sent := 0, client_open := false }

/-- A publisher that has sent two messages totalling ten bytes. -/
def pubC1 : Publisher :=
  { channel := "test_channel", min_message_size := 100, max_message_size := 1000,
    running := true, messages_sent := 2, total_bytes_sent := 10, client_open := true }

/-- The counters of a reader that received one four-byte-accounted
message. -/
def statsC : ConnectionStats :=
  { bytes_read := 4, messages_received := 1, reconnection_attempts := 0 }

/-- Claim C9 counterexample: when `messages_sent = 0` the report
contains no average-message-size line at all (rather than an average
defined as 0). -/
theorem c9_counterexample :
    pubC0.messages_sent = 0 ∧
    containsAvg (BufferTester.print_stats [] pubC0) = false := by
  exact ⟨rfl, by decide⟩

/-- Claim C9 (amended): the report contains the average-message-size
line (with value `total_bytes_sent / messages_sent`) exactly when
`messages_sent > 0`; when no message was sent the line is omitted.
The rest of the report — publisher totals, the three aggregate sums
and the per-subscriber breakdown — is present in every run. -/
theorem c9_report (readers : List ConnectionStats) (pub : Publisher) :
    (containsAvg (BufferTester.print_stats readers pub) = true ↔ 0 < pub.messages_sent) ∧
    (0 < pub.messages_sent →
      ReportItem.avgMessageSize ((pub.total_bytes_sent : ℚ) / (pub.messages_sent : ℚ)) ∈
        BufferTester.print_stats readers pub) ∧
    ReportItem.messagesSent pub.messages_sent ∈ BufferTester.print_stats readers pub ∧
    ReportItem.bytesSent pub.total_bytes_sent ∈ BufferTester.print_stats readers pub ∧
    ReportItem.messagesReceivedTotal ((readers.map ConnectionStats.messages_received).sum) ∈
      BufferTester.print_stats readers pub ∧
    ReportItem.bytesReadTotal ((readers.map ConnectionStats.bytes_read).sum) ∈
      BufferTester.print_stats readers pub ∧
    ReportItem.reconnectionsTotal ((readers.map ConnectionStats.reconnection_attempts).sum) ∈
      BufferTester.print_stats readers pub ∧
    ∀ p ∈ readers.enum,
      ReportItem.perConnection (p.1 + 1) p.2 ∈ BufferTester.print_stats readers pub := by
  refine ⟨?_, ?_, ?_, ?_, ?_, ?_, ?_, ?_⟩
  · by_cases hp : 0 < pub.messages_sent
    · simp [BufferTester.print_stats, containsAvg, ReportItem.isAvg, hp,
        List.any_append, List.any_map, Function.comp]
    · simp [BufferTester.print_stats, containsAvg, ReportItem.isAvg, hp,
        List.any_append, List.any_map, Function.comp]
      intro x x1 x2 hmem hEq
      subst hEq
      rfl
  · intro hp
    simp [BufferTester.print_stats, hp, List.mem_append]
  · simp [BufferTester.print_stats, List.mem_append]
  · simp [BufferTester.print_stats, List.mem_append]
  · simp [BufferTester.print_stats, List.mem_append]
  · simp [BufferTester.print_stats, List.mem_append]
  · simp [BufferTester.print_stats, List.mem_append]
  · intro p hp2
    simp only [BufferTester.print_stats]
    exact List.mem_append_right _ (List.mem_map_of_mem _ hp2)

/-- Witness for `c9_report` on a concrete reader and publisher. -/
theorem c9_report_witness :
    0 < pubC1.messages_sent ∧
    ReportItem.avgMessageSize ((pubC1.total_bytes_sent : ℚ) / (pubC1.messages_sent : ℚ)) ∈
      BufferTester.print_stats [statsC] pubC1 :=
  ⟨by decide, (c9_report [statsC] pubC1).2.1 (by decide)⟩

/-! ### Claim C10: construction never raises -/

/-- Whether the connect attempt produced a live handle. -/
def ConnectOutcome.isOk : ConnectOutcome → Bool
  | .ok => true
  | .redisErr => false

/-- Claim C10: `SlowReader.__init__` is total for both connect
outcomes — `connect` catches the client error and returns `False`
leaving the reader untouched, `__init__` ignores that result, and the
object always starts with `running = True`, zeroed statistics, and a
live handle exactly when the initial connect succeeded. -/
theorem c10_init_total (host : String) (port : Nat) (channel : String)
    (mnb mxb : Nat) (mns mxs : ℚ) (co : ConnectOutcome) (r : SlowReader) :
    (SlowReader.init host port channel mnb mxb mns mxs co).running = true ∧
    (SlowReader.init host port channel mnb mxb mns mxs co).stats =
      { bytes_read := 0, messages_received := 0, reconnection_attempts := 0 } ∧
    (SlowReader.init host port channel mnb mxb mns mxs co).handle_open = co.isOk ∧
    (SlowReader.connect r ConnectOutcome.redisErr).2 = false ∧
    (SlowReader.connect r ConnectOutcome.redisErr).1 = r := by
  cases co <;> exact ⟨rfl, rfl, rfl, rfl, rfl⟩

end SlowPubSub
